import Mathlib

/-!
Verification development for the Microsoft-Appx-Downloader repository
(single source file `run.py`).

The embedding models the two operations the spec calls AssetDownloader
(`download_asset`, run.py lines 47-81) and the shell entry point (`main`,
run.py lines 84-159, plus the exit-code wrapper at lines 162-178).

External effects are made explicit:
* the filesystem is a state value `FS` (directories plus path/content pairs);
* the single HTTP GET performed by a `download_asset` call is modelled by a
  `NetBehavior` value describing what the network does on that call
  (an exception while connecting, or a response with a status, a body and an
  optional mid-stream failure point);
* the store backend call `msstore.fetch_assets` is modelled by a
  `FetchResult` value (it either returns an asset list or raises);
* the interactive prompt is modelled by a `UserInput` value (a line, or EOF);
* console output is collected in a list of message strings (the rich markup
  tags such a `[red]` are presentation and are stripped).

Bytes are modelled as `Nat`; a file body is a `List Nat`.
-/

/-- A byte string: the body of a response or the content of a file. -/
abbrev Bytes := List Nat

/-- One asset dictionary as produced by `msstore.fetch_assets`
(keys used in run.py: `name`, `arch`, `extension`, `modified` or `locale`,
and `url`). -/
structure Asset where
  name : String
  arch : String
  extension : String
  modified : Option String
  locale : Option String
  url : String
deriving DecidableEq

/-- Filesystem state: the set of existing directories, and the existing
files as (path, content) pairs (at most one entry per path). -/
structure FS where
  dirs : List String
  files : List (String × Bytes)
deriving DecidableEq

/-- Emulates `os.path.exists`: the path exists as a directory or a file. -/
def FS.existsPath (fs : FS) (p : String) : Bool :=
  fs.dirs.contains p || (fs.files.map Prod.fst).contains p

/-- Emulates `os.makedirs download_dir`. -/
def FS.makedirs (fs : FS) (p : String) : FS :=
  { fs with dirs := p :: fs.dirs }

/-- Content of the file at `p`, empty if absent. -/
def FS.readFile (fs : FS) (p : String) : Bytes :=
  ((fs.files.find? (fun e => e.1 == p)).map Prod.snd).getD []

/-- Whether a file exists at path `p`. -/
def FS.hasFile (fs : FS) (p : String) : Bool :=
  (fs.files.find? (fun e => e.1 == p)).isSome

/-- Create or truncate the file at `p` and set its content to `c`
(emulates what a completed `open(p, "wb")` write session leaves behind). -/
def FS.writeFile (fs : FS) (p : String) (c : Bytes) : FS :=
  { fs with files := (p, c) :: fs.files.filter (fun e => !(e.1 == p)) }

/-- Append one chunk to the (already open) file at `p`: one `f.write(chunk)`
iteration of the download loop. -/
def FS.appendFile (fs : FS) (p : String) (c : Bytes) : FS :=
  fs.writeFile p (fs.readFile p ++ c)

/-- Emulates `os.path.isabs` on POSIX: the path starts with a slash. -/
def isAbs (p : String) : Bool := p.data.head? == some '/'

/-- Emulates `os.path.join a b` (for the shapes run.py passes: if `b` is
absolute it wins, otherwise a single separator is inserted). -/
def joinPath (a b : String) : String :=
  if isAbs b then b else a ++ "/" ++ b

/-- Chunking of a body into pieces of at most `n` bytes, as
`response.content.iter_chunked(n)` yields them.  Structural fuel recursion
(fuel = length of the remaining body) so that it computes by `decide`. -/
def iterChunkedAux (n : Nat) : Nat → Bytes → List Bytes
  | 0, _ => []
  | _, [] => []
  | fuel + 1, b => b.take n :: iterChunkedAux n fuel (b.drop n)

/-- The chunk sequence `response.content.iter_chunked(n)` applied to a body. -/
def iter_chunked (n : Nat) (b : Bytes) : List Bytes :=
  iterChunkedAux n b.length b

/-- The write loop `async for chunk in ...: f.write(chunk)` preceded by
`open(file_path, "wb")`: truncate, then append the chunks one by one. -/
def writeChunks (fs : FS) (p : String) (chunks : List Bytes) : FS :=
  chunks.foldl (fun acc c => acc.appendFile p c) (fs.writeFile p [])

/-- What the network does on the one GET a `download_asset` call issues.
`raiseOnGet` is an exception before any response arrives (connection error,
timeout while connecting).  `response status body streamErr` is a response
with the given status whose body, when iterated, yields the chunks of
`body`; if `streamErr = some (k, msg)` the iteration raises after `k`
chunks were delivered (timeout or reset mid-stream). -/
inductive NetBehavior where
  | raiseOnGet (msg : String)
  | response (status : Nat) (body : Bytes) (streamErr : Option (Nat × String))
deriving DecidableEq

/-- Whether this network behavior makes the `try` block of `download_asset`
raise: either the GET itself raises, or the status is 200 (so the body is
iterated) and the stream raises mid-way. -/
def netRaises : NetBehavior → Bool
  | .raiseOnGet _ => true
  | .response status _ streamErr => status == 200 && streamErr.isSome

/-- The total timeout, seconds, of the `aiohttp.ClientTimeout(total=120)`
session configuration (run.py line 65). -/
def clientTimeoutTotal : Nat := 120

/-- Resolution of the destination directory (run.py lines 50-52):
`download_dir` if given, else `<script_dir>/downloads` where `script_dir`
is `os.path.dirname(os.path.abspath(__file__))` (always absolute). -/
def resolve_download_dir (download_dir : Option String) (script_dir : String) : String :=
  match download_dir with
  | some d => d
  | none => joinPath script_dir "downloads"

/-- The body of the `try` block of `download_asset` (run.py lines 62-78).
Returns `Except.error msg` when the block raises with message `msg`,
together with the filesystem and console effects performed up to that
point; `Except.ok r` is a normal return of `r`. -/
def download_asset_try (file_path : String) (net : NetBehavior) (fs : FS)
    (log : List String) : Except String (Option String) × FS × List String :=
  match net with
  | .raiseOnGet msg => (Except.error msg, fs, log)
  | .response status body streamErr =>
    if status == 200 then
      match streamErr with
      | none =>
        (Except.ok (some file_path),
         writeChunks fs file_path (iter_chunked 8192 body),
         log ++ ["Download completed!"])
      | some (k, msg) =>
        (Except.error msg,
         writeChunks fs file_path ((iter_chunked 8192 body).take k),
         log)
    else
      (Except.ok none, fs, log ++ ["Download failed with status " ++ toString status])

/-- `download_asset` (run.py lines 47-81): resolve the destination
directory, create it if missing, compute the destination path, and run the
guarded download; any exception from the `try` block is caught and turned
into a `none` return with an error message printed.
Result: (return value, final filesystem, console messages). -/
def download_asset (asset : Asset) (download_dir : Option String)
    (script_dir : String) (net : NetBehavior) (fs : FS) :
    Option String × FS × List String :=
  let dir := resolve_download_dir download_dir script_dir
  let fs1 := if fs.existsPath dir then fs else fs.makedirs dir
  let file_path := joinPath dir asset.name
  let log0 := ["Downloading to: " ++ file_path]
  match download_asset_try file_path net fs1 log0 with
  | (Except.ok r, fs2, log2) => (r, fs2, log2)
  | (Except.error e, fs2, log2) => (none, fs2, log2 ++ ["Download error: " ++ e])

/-- Result of the `msstore.fetch_assets(url)` call inside `main`:
either the pair (assets, is_uwp), or a raised exception. -/
inductive FetchResult where
  | ok (assets : List Asset) (is_uwp : Bool)
  | raised (msg : String)
deriving DecidableEq

/-- What `Prompt.ask` yields in interactive mode: a line of input, or
EOF (the non-interactive environment case, raising `EOFError`). -/
inductive UserInput where
  | line (s : String)
  | eof
deriving DecidableEq

/-- Emulates Python `str.lower()` (character-wise, as run.py applies it to
the prompt answer). -/
def pyLower (s : String) : String := ⟨s.data.map Char.toLower⟩

/-- Value of a list of decimal digit characters. -/
def digitsToNat (l : List Char) : Nat :=
  l.foldl (fun acc c => acc * 10 + (c.toNat - 48)) 0

/-- Strip leading and trailing whitespace, as Python `int()` does before
parsing. -/
def pyTrimChars (l : List Char) : List Char :=
  ((l.dropWhile Char.isWhitespace).reverse.dropWhile Char.isWhitespace).reverse

/-- Emulates Python `int(s)` as used on the prompt answer: strip
whitespace, allow one leading sign, then decimal digits; `none` models
the `ValueError` branch.  (Python also accepts underscores between
digits and unicode digits; those inputs are not modelled.) -/
def pyInt? (s : String) : Option Int :=
  match pyTrimChars s.data with
  | [] => none
  | c :: rest =>
    if c = '-' then
      if rest ≠ [] ∧ rest.all Char.isDigit then
        some (-(digitsToNat rest : Int))
      else none
    else if c = '+' then
      if rest ≠ [] ∧ rest.all Char.isDigit then
        some ((digitsToNat rest : Int))
      else none
    else if (c :: rest).all Char.isDigit then
      some ((digitsToNat (c :: rest) : Int))
    else none

namespace run

/-- `main` (run.py lines 84-159).  The presentation calls
(`display_assets_table`, most `console.print`s) have no filesystem effect
and are omitted from the log except where a claim refers to them.
Result: (returned boolean, final filesystem, console messages). -/
def main (_url : String) (auto_download : Bool) (download_dir : Option String)
    (script_dir : String) (fetch : FetchResult) (input : UserInput)
    (net : NetBehavior) (fs : FS) : Bool × FS × List String :=
  match fetch with
  | .raised msg => (false, fs, ["Error: " ++ msg])
  | .ok assets _is_uwp =>
    if auto_download then
      match assets with
      | [] => (false, fs, ["No assets available for download"])
      | selected :: _ =>
        match download_asset selected download_dir script_dir net fs with
        | (some _, fs2, log2) => (true, fs2, log2)
        | (none, fs2, log2) => (false, fs2, log2)
    else
      match input with
      | .eof => (true, fs, [])
      | .line choice =>
        if pyLower choice == "q" then (true, fs, [])
        else
          match pyInt? choice with
          | none => (false, fs, ["Invalid input"])
          | some n =>
            let index : Int := n - 1
            if 0 ≤ index ∧ index < (assets.length : Int) then
              match assets[index.toNat]? with
              | some selected =>
                match download_asset selected download_dir script_dir net fs with
                | (some _, fs2, log2) => (true, fs2, log2)
                | (none, fs2, log2) => (false, fs2, log2)
              | none => (false, fs, [])
            else (false, fs, ["Invalid selection"])

end run

/-- The exit-code wrapper (run.py lines 175-178): `sys.exit(1)` when
`main` returned a falsy value, normal exit (code 0) otherwise. -/
def py_exit_code (success : Bool) : Nat := if success then 0 else 1

/-- Concrete asset used in counterexamples and witnesses. -/
def assetA : Asset :=
  { name := "a.bin", arch := "x64", extension := "bin",
    modified := some "2024-01-01", locale := none, url := "http://u/a.bin" }

/-- Empty filesystem. -/
def fs0 : FS := { dirs := [], files := [] }

/-- Filesystem with the destination directory `d` already present. -/
def fsD : FS := { dirs := ["d"], files := [] }

/-! ### Helper lemmas about the embedding -/

/-- Flattening the chunk sequence recovers the body (fuel version). -/
theorem iterChunkedAux_flatten (n : Nat) (hn : n ≠ 0) :
    ∀ (fuel : Nat) (b : Bytes), b.length ≤ fuel →
      (iterChunkedAux n fuel b).flatten = b := by
  intro fuel
  induction fuel with
  | zero =>
    intro b hb
    have : b = [] := List.eq_nil_of_length_eq_zero (Nat.le_zero.mp hb)
    subst this
    rfl
  | succ fuel ih =>
    intro b hb
    cases b with
    | nil => rfl
    | cons x xs =>
      have hdrop : ((x :: xs).drop n).length ≤ fuel := by
        rw [List.length_drop]
        simp only [List.length_cons] at hb ⊢
        omega
      simp only [iterChunkedAux, List.flatten_cons, ih _ hdrop,
        List.take_append_drop]

/-- Every chunk yielded by the fuel version has at most `n` bytes. -/
theorem iterChunkedAux_length_le (n : Nat) :
    ∀ (fuel : Nat) (b : Bytes) (c : Bytes),
      c ∈ iterChunkedAux n fuel b → c.length ≤ n := by
  intro fuel
  induction fuel with
  | zero => intro b c hc; simp [iterChunkedAux] at hc
  | succ fuel ih =>
    intro b c hc
    cases b with
    | nil => simp [iterChunkedAux] at hc
    | cons x xs =>
      simp only [iterChunkedAux, List.mem_cons] at hc
      rcases hc with hc | hc
      · subst hc
        simp [List.length_take]
      · exact ih _ _ hc

/-- Flattening the chunk sequence recovers the body. -/
theorem iter_chunked_flatten (n : Nat) (b : Bytes) (hn : n ≠ 0) :
    (iter_chunked n b).flatten = b :=
  iterChunkedAux_flatten n hn b.length b (Nat.le_refl _)

/-- Every chunk of `iter_chunked n b` has at most `n` bytes. -/
theorem iter_chunked_length_le (n : Nat) (b c : Bytes)
    (hc : c ∈ iter_chunked n b) : c.length ≤ n :=
  iterChunkedAux_length_le n b.length b c hc

/-- Reading back a freshly written file yields the written content. -/
theorem FS.readFile_writeFile (fs : FS) (p : String) (c : Bytes) :
    (fs.writeFile p c).readFile p = c := by
  simp [FS.readFile, FS.writeFile, List.find?_cons_of_pos]

/-- Writing a file leaves the other entries (those not at `p`) unchanged. -/
theorem FS.filter_writeFile (fs : FS) (p : String) (c : Bytes) :
    (fs.writeFile p c).files.filter (fun e => !(e.1 == p)) =
      fs.files.filter (fun e => !(e.1 == p)) := by
  simp [FS.writeFile, List.filter_filter]

/-- A second write to the same path overwrites the first. -/
theorem FS.writeFile_writeFile (fs : FS) (p : String) (b c : Bytes) :
    (fs.writeFile p b).writeFile p c = fs.writeFile p c := by
  have h := FS.filter_writeFile fs p b
  simp only [FS.writeFile] at h ⊢
  simp [h]

/-- Appending to a freshly written file extends its content. -/
theorem FS.appendFile_writeFile (fs : FS) (p : String) (b c : Bytes) :
    (fs.writeFile p b).appendFile p c = fs.writeFile p (b ++ c) := by
  rw [FS.appendFile, FS.readFile_writeFile, FS.writeFile_writeFile]

/-- The chunked write loop is equivalent to one write of the flattened
chunks: generalized accumulator version. -/
theorem writeChunks_foldl (p : String) :
    ∀ (cs : List Bytes) (fs : FS) (b : Bytes),
      cs.foldl (fun acc c => acc.appendFile p c) (fs.writeFile p b) =
        fs.writeFile p (b ++ cs.flatten) := by
  intro cs
  induction cs with
  | nil => intro fs b; simp
  | cons c cs ih =>
    intro fs b
    simp only [List.foldl_cons, FS.appendFile_writeFile, ih,
      List.flatten_cons, List.append_assoc]

/-- The chunked write loop writes exactly the flattened chunks. -/
theorem writeChunks_eq (fs : FS) (p : String) (cs : List Bytes) :
    writeChunks fs p cs = fs.writeFile p cs.flatten := by
  rw [writeChunks, writeChunks_foldl]
  simp

/-- The conditional directory creation never changes the files. -/
theorem files_if_makedirs (fs : FS) (b : Bool) (d : String) :
    (if b then fs else fs.makedirs d).files = fs.files := by
  cases b <;> rfl

/-- The conditional directory creation either keeps the directories or
adds exactly the destination directory. -/
theorem dirs_if_makedirs (fs : FS) (b : Bool) (d : String) :
    (if b then fs else fs.makedirs d).dirs = fs.dirs ∨
      (if b then fs else fs.makedirs d).dirs = d :: fs.dirs := by
  cases b
  · right; rfl
  · left; rfl

/-- Full characterization of `download_asset` as a case split on the
network behavior, with the chunked write loop collapsed to a single write
of the flattened chunks. -/
theorem download_asset_eq (asset : Asset) (dd : Option String) (sd : String)
    (net : NetBehavior) (fs : FS) :
    download_asset asset dd sd net fs =
      let dir := resolve_download_dir dd sd
      let fs1 := if fs.existsPath dir then fs else fs.makedirs dir
      let path := joinPath dir asset.name
      match net with
      | .raiseOnGet msg =>
        (none, fs1, ["Downloading to: " ++ path, "Download error: " ++ msg])
      | .response status body streamErr =>
        if status == 200 then
          match streamErr with
          | none =>
            (some path, fs1.writeFile path body,
             ["Downloading to: " ++ path, "Download completed!"])
          | some (k, msg) =>
            (none, fs1.writeFile path ((iter_chunked 8192 body).take k).flatten,
             ["Downloading to: " ++ path, "Download error: " ++ msg])
        else
          (none, fs1,
           ["Downloading to: " ++ path,
            "Download failed with status " ++ toString status]) := by
  cases net with
  | raiseOnGet msg => rfl
  | response status body streamErr =>
    simp only [download_asset, download_asset_try]
    by_cases h : status == 200
    · cases streamErr with
      | none =>
        simp [h, writeChunks_eq, iter_chunked_flatten 8192 body (by decide)]
      | some e =>
        cases e with
        | mk k msg => simp [h, writeChunks_eq]
    · simp [h]

/-- Prepending an absolute path keeps the result absolute. -/
theorem isAbs_append (a b : String) (h : isAbs a = true) :
    isAbs (a ++ b) = true := by
  simp only [isAbs, beq_iff_eq] at h ⊢
  rw [String.data_append]
  cases hd : a.data with
  | nil => rw [hd] at h; simp at h
  | cons x xs =>
    rw [hd] at h
    simp at h
    subst h
    rfl

/-- Joining onto an absolute directory yields an absolute path. -/
theorem isAbs_joinPath (a b : String) (h : isAbs a = true) :
    isAbs (joinPath a b) = true := by
  rw [joinPath]
  split
  · assumption
  · exact isAbs_append _ _ (isAbs_append _ _ h)

/-! ### The claims -/

/-- Claim C1 counterexample: with destination directory `d` present, a
transport error after the first chunk of a 200 response was streamed leaves
`download_asset` returning the failure value `none` while a file containing
the full delivered body sits at the final destination path `d/a.bin` —
an artifact indistinguishable from a complete download. -/
theorem C1_counterexample :
    (download_asset assetA (some "d") "/repo/src"
        (NetBehavior.response 200 [1, 2, 3] (some (1, "reset"))) fsD).1 = none ∧
    (download_asset assetA (some "d") "/repo/src"
        (NetBehavior.response 200 [1, 2, 3] (some (1, "reset"))) fsD).2.1.hasFile
        "d/a.bin" = true ∧
    (download_asset assetA (some "d") "/repo/src"
        (NetBehavior.response 200 [1, 2, 3] (some (1, "reset"))) fsD).2.1.readFile
        "d/a.bin" = [1, 2, 3] := by
  decide

/-- Claim C1 (amended): a failure before any body byte is accepted (GET
exception, or non-200 status) writes no file, but a transport error while
streaming a 200 body leaves the chunks received so far in a file at the
final destination path — there is no temp-file staging. -/
theorem C1_amended_partial_file_on_stream_error (asset : Asset)
    (dd : Option String) (sd : String) (fs : FS) :
    (∀ msg,
      (download_asset asset dd sd (.raiseOnGet msg) fs).1 = none ∧
      (download_asset asset dd sd (.raiseOnGet msg) fs).2.1.files = fs.files) ∧
    (∀ status body e, status ≠ 200 →
      (download_asset asset dd sd (.response status body e) fs).1 = none ∧
      (download_asset asset dd sd (.response status body e) fs).2.1.files
        = fs.files) ∧
    (∀ body k msg,
      (download_asset asset dd sd (.response 200 body (some (k, msg))) fs).1
        = none ∧
      (download_asset asset dd sd
          (.response 200 body (some (k, msg))) fs).2.1.readFile
          (joinPath (resolve_download_dir dd sd) asset.name)
        = ((iter_chunked 8192 body).take k).flatten) := by
  refine ⟨fun msg => ?_, fun status body e h => ?_, fun body k msg => ?_⟩
  · rw [download_asset_eq]
    exact ⟨rfl, files_if_makedirs _ _ _⟩
  · rw [download_asset_eq]
    have hb : (status == 200) = false := beq_eq_false_iff_ne.mpr h
    simp only [hb, if_false, Bool.false_eq_true]
    exact ⟨trivial, files_if_makedirs _ _ _⟩
  · rw [download_asset_eq]
    simp only [beq_self_eq_true, if_true]
    exact ⟨trivial, FS.readFile_writeFile _ _ _⟩

/-- Claim C1 witness: instantiation of the amended theorem at a concrete
input of each kind. -/
theorem C1_amended_witness :
    ((download_asset assetA (some "d") "/s" (.response 404 [] none) fs0).1
        = none ∧
      (download_asset assetA (some "d") "/s"
          (.response 404 [] none) fs0).2.1.files = fs0.files) ∧
    ((download_asset assetA (some "d") "/s"
          (.response 200 [1, 2, 3] (some (1, "r"))) fs0).1 = none ∧
      (download_asset assetA (some "d") "/s"
          (.response 200 [1, 2, 3] (some (1, "r"))) fs0).2.1.readFile
          (joinPath (resolve_download_dir (some "d") "/s") assetA.name)
        = ((iter_chunked 8192 [1, 2, 3]).take 1).flatten) :=
  ⟨(C1_amended_partial_file_on_stream_error assetA (some "d") "/s" fs0).2.1
      404 [] none (by decide),
    (C1_amended_partial_file_on_stream_error assetA (some "d") "/s" fs0).2.2
      [1, 2, 3] 1 "r"⟩

/-- Claim C2 counterexample: a 404 response against a not-yet-existing
destination directory `d` yields a failure outcome, yet the filesystem has
changed — `os.makedirs` created the directory before the GET, so the call
does perform a filesystem write. -/
theorem C2_counterexample :
    (download_asset assetA (some "d") "/repo/src"
        (NetBehavior.response 404 [] none) fs0).1 = none ∧
    (download_asset assetA (some "d") "/repo/src"
        (NetBehavior.response 404 [] none) fs0).2.1 ≠ fs0 ∧
    (download_asset assetA (some "d") "/repo/src"
        (NetBehavior.response 404 [] none) fs0).2.1.dirs = ["d"] := by
  decide

/-- Claim C2 (amended): on a non-success status, `download_asset` returns a
failure outcome, reports a message carrying that status code, and writes no
file; the only possible filesystem effect is the creation of the
destination directory itself, which happens before the request regardless
of the outcome. -/
theorem C2_amended_no_file_on_bad_status (asset : Asset) (dd : Option String)
    (sd : String) (fs : FS) (status : Nat) (body : Bytes)
    (e : Option (Nat × String)) (h : status ≠ 200) :
    (download_asset asset dd sd (.response status body e) fs).1 = none ∧
    (download_asset asset dd sd (.response status body e) fs).2.1.files
      = fs.files ∧
    ("Download failed with status " ++ toString status)
      ∈ (download_asset asset dd sd (.response status body e) fs).2.2 ∧
    ((download_asset asset dd sd (.response status body e) fs).2.1.dirs
        = fs.dirs ∨
      (download_asset asset dd sd (.response status body e) fs).2.1.dirs
        = resolve_download_dir dd sd :: fs.dirs) := by
  rw [download_asset_eq]
  have hb : (status == 200) = false := beq_eq_false_iff_ne.mpr h
  simp only [hb, if_false, Bool.false_eq_true]
  exact ⟨trivial, files_if_makedirs _ _ _, by simp, dirs_if_makedirs _ _ _⟩

/-- Claim C2 witness: the amended theorem at a concrete 404 input. -/
theorem C2_amended_witness :
    (download_asset assetA (some "d") "/s" (.response 404 [] none) fs0).1
      = none ∧
    (download_asset assetA (some "d") "/s"
        (.response 404 [] none) fs0).2.1.files = fs0.files ∧
    ("Download failed with status " ++ toString 404)
      ∈ (download_asset assetA (some "d") "/s"
          (.response 404 [] none) fs0).2.2 ∧
    ((download_asset assetA (some "d") "/s"
          (.response 404 [] none) fs0).2.1.dirs = fs0.dirs ∨
      (download_asset assetA (some "d") "/s"
          (.response 404 [] none) fs0).2.1.dirs
        = resolve_download_dir (some "d") "/s" :: fs0.dirs) :=
  C2_amended_no_file_on_bad_status assetA (some "d") "/s" fs0 404 [] none
    (by decide)

/-- Claim C3 counterexample: with the caller-supplied relative destination
directory `downloads`, a successful download returns the relative path
`downloads/a.bin`, not an absolute path. -/
theorem C3_counterexample :
    (download_asset assetA (some "downloads") "/repo/src"
        (NetBehavior.response 200 [7] none) fs0).1 = some "downloads/a.bin" ∧
    isAbs "downloads/a.bin" = false := by
  decide

/-- Claim C3 (amended): on success `download_asset` returns the joined
destination path `dir/asset.name` exactly as constructed; that path is
absolute when the default directory is used (it is rooted at the absolute
script directory), or when the caller-supplied directory is absolute — but
a relative caller-supplied directory yields a relative path. -/
theorem C3_amended_returns_joined_path (asset : Asset) (dd : Option String)
    (sd : String) (body : Bytes) (fs : FS) (hsd : isAbs sd = true) :
    (download_asset asset dd sd (.response 200 body none) fs).1
      = some (joinPath (resolve_download_dir dd sd) asset.name) ∧
    (dd = none →
      isAbs (joinPath (resolve_download_dir dd sd) asset.name) = true) ∧
    (∀ d, dd = some d → isAbs d = true →
      isAbs (joinPath (resolve_download_dir dd sd) asset.name) = true) := by
  refine ⟨?_, ?_, ?_⟩
  · rw [download_asset_eq]
    rfl
  · intro hdd
    subst hdd
    exact isAbs_joinPath _ _ (isAbs_joinPath _ _ hsd)
  · intro d hdd hd
    subst hdd
    exact isAbs_joinPath _ _ hd

/-- Claim C3 witness: the amended theorem at the default directory with an
absolute script directory. -/
theorem C3_amended_witness :
    (download_asset assetA none "/repo/src"
        (.response 200 [7] none) fs0).1
      = some (joinPath (resolve_download_dir none "/repo/src") assetA.name) ∧
    isAbs (joinPath (resolve_download_dir none "/repo/src") assetA.name)
      = true :=
  ⟨(C3_amended_returns_joined_path assetA none "/repo/src" [7] fs0
      (by decide)).1,
    (C3_amended_returns_joined_path assetA none "/repo/src" [7] fs0
      (by decide)).2.1 rfl⟩

/-- Claim C4: whenever the network behavior makes the guarded block raise
(an exception on the GET itself, or a mid-stream exception while iterating
a 200 body), `download_asset` returns the definite failure value `none`
and prints the caught error — the exception never propagates past the
function boundary. -/
theorem C4_transport_exceptions_caught (asset : Asset) (dd : Option String)
    (sd : String) (net : NetBehavior) (fs : FS) (h : netRaises net = true) :
    (download_asset asset dd sd net fs).1 = none ∧
    ∃ m, ("Download error: " ++ m) ∈ (download_asset asset dd sd net fs).2.2 := by
  cases net with
  | raiseOnGet msg =>
    rw [download_asset_eq]
    exact ⟨rfl, msg, by simp⟩
  | response status body streamErr =>
    simp only [netRaises, Bool.and_eq_true] at h
    cases streamErr with
    | none => simp [Option.isSome] at h
    | some e =>
      cases e with
      | mk k msg =>
        rw [download_asset_eq]
        simp only [h.1, if_true]
        exact ⟨trivial, msg, by simp⟩

/-- Claim C4 witness: a connection exception at a concrete input is
converted into a `none` result with the error reported. -/
theorem C4_witness :
    (download_asset assetA (some "d") "/s" (.raiseOnGet "reset") fs0).1
      = none ∧
    ∃ m, ("Download error: " ++ m)
      ∈ (download_asset assetA (some "d") "/s" (.raiseOnGet "reset") fs0).2.2 :=
  C4_transport_exceptions_caught assetA (some "d") "/s" (.raiseOnGet "reset")
    fs0 (by decide)

/-- Claim C5: on a 200 response, `download_asset` writes the destination
file at `destination_dir` joined with `asset.name` through the chunked
write loop (open for write, then append chunk by chunk), the chunk sequence
is `iter_chunked 8192 body` whose every chunk holds at most 8192 bytes, and
the final file content is exactly the response body. -/
theorem C5_chunked_streaming_write (asset : Asset) (dd : Option String)
    (sd : String) (body : Bytes) (fs : FS) :
    (download_asset asset dd sd (.response 200 body none) fs).1
      = some (joinPath (resolve_download_dir dd sd) asset.name) ∧
    (download_asset asset dd sd (.response 200 body none) fs).2.1
      = writeChunks
          (if fs.existsPath (resolve_download_dir dd sd) then fs
           else fs.makedirs (resolve_download_dir dd sd))
          (joinPath (resolve_download_dir dd sd) asset.name)
          (iter_chunked 8192 body) ∧
    (download_asset asset dd sd (.response 200 body none) fs).2.1.readFile
        (joinPath (resolve_download_dir dd sd) asset.name) = body ∧
    (∀ c, c ∈ iter_chunked 8192 body → c.length ≤ 8192) := by
  have h2 : (download_asset asset dd sd (.response 200 body none) fs).2.1
      = writeChunks
          (if fs.existsPath (resolve_download_dir dd sd) then fs
           else fs.makedirs (resolve_download_dir dd sd))
          (joinPath (resolve_download_dir dd sd) asset.name)
          (iter_chunked 8192 body) := rfl
  refine ⟨?_, h2, ?_, fun c hc => iter_chunked_length_le _ _ _ hc⟩
  · rw [download_asset_eq]
    rfl
  · rw [h2, writeChunks_eq, FS.readFile_writeFile,
      iter_chunked_flatten 8192 body (by decide)]

/-- Claim C5 witness: the chunked-write theorem at a concrete body, with
the membership hypothesis discharged for the single produced chunk. -/
theorem C5_witness :
    (download_asset assetA (some "d") "/s"
        (.response 200 [1, 2] none) fs0).2.1.readFile
        (joinPath (resolve_download_dir (some "d") "/s") assetA.name)
      = [1, 2] ∧
    ([1, 2] : Bytes).length ≤ 8192 :=
  ⟨(C5_chunked_streaming_write assetA (some "d") "/s" [1, 2] fs0).2.2.1,
    (C5_chunked_streaming_write assetA (some "d") "/s" [1, 2] fs0).2.2.2
      [1, 2] (by decide)⟩

/-- Shared helper: after a fully successful download, the destination file
holds exactly the response body. -/
theorem download_asset_success_readFile (asset : Asset) (dd : Option String)
    (sd : String) (body : Bytes) (fs : FS) :
    (download_asset asset dd sd (.response 200 body none) fs).2.1.readFile
      (joinPath (resolve_download_dir dd sd) asset.name) = body := by
  have h2 : (download_asset asset dd sd (.response 200 body none) fs).2.1
      = writeChunks
          (if fs.existsPath (resolve_download_dir dd sd) then fs
           else fs.makedirs (resolve_download_dir dd sd))
          (joinPath (resolve_download_dir dd sd) asset.name)
          (iter_chunked 8192 body) := rfl
  rw [h2, writeChunks_eq, FS.readFile_writeFile,
    iter_chunked_flatten 8192 body (by decide)]

/-- Claim C7: in auto mode with a non-empty resolution result, `main`
delegates exactly to a download of the asset at position 0 — it returns
success iff that download returns a path, the final filesystem is the one
that download produced, and on a successful 200 stream the destination
file is at `dir/assets[0].name` and holds the body. -/
theorem C7_auto_first_asset (url : String) (dd : Option String) (sd : String)
    (a : Asset) (rest : List Asset) (uwp : Bool) (input : UserInput)
    (net : NetBehavior) (fs : FS) :
    (run.main url true dd sd (.ok (a :: rest) uwp) input net fs).1
      = (download_asset a dd sd net fs).1.isSome ∧
    (run.main url true dd sd (.ok (a :: rest) uwp) input net fs).2.1
      = (download_asset a dd sd net fs).2.1 ∧
    (∀ body, net = .response 200 body none →
      (run.main url true dd sd (.ok (a :: rest) uwp) input net fs).2.1.readFile
        (joinPath (resolve_download_dir dd sd) a.name) = body) := by
  rcases hd : download_asset a dd sd net fs with ⟨r, fs2, log2⟩
  refine ⟨?_, ?_, ?_⟩
  · cases r <;> simp [run.main, hd]
  · cases r <;> simp [run.main, hd]
  · intro body hnet
    subst hnet
    have hrf := download_asset_success_readFile a dd sd body fs
    rw [hd] at hrf
    cases r <;> simp [run.main, hd] <;> simpa using hrf

/-- Claim C7 witness: one-asset result in auto mode, successful 200
stream: the written file is named after the first asset and holds the
body. -/
theorem C7_witness :
    (run.main "u" true (some "d") "/s" (.ok [assetA] true) .eof
        (.response 200 [9] none) fs0).2.1.readFile
      (joinPath (resolve_download_dir (some "d") "/s") assetA.name) = [9] :=
  (C7_auto_first_asset "u" (some "d") "/s" assetA [] true .eof
    (.response 200 [9] none) fs0).2.2 [9] rfl

/-- Claim C8: in auto mode, each kind of failure — resolution raised, an
empty asset list, or a failed download of the first asset — makes `main`
return `False`, and the process then exits with code 1. -/
theorem C8_auto_failure_exits_nonzero (url : String) (dd : Option String)
    (sd : String) (fetch : FetchResult) (input : UserInput)
    (net : NetBehavior) (fs : FS)
    (h : (∃ msg, fetch = FetchResult.raised msg) ∨
      (∃ uwp, fetch = FetchResult.ok [] uwp) ∨
      (∃ a rest uwp, fetch = FetchResult.ok (a :: rest) uwp ∧
        (download_asset a dd sd net fs).1 = none)) :
    (run.main url true dd sd fetch input net fs).1 = false ∧
    py_exit_code (run.main url true dd sd fetch input net fs).1 = 1 := by
  have hm : (run.main url true dd sd fetch input net fs).1 = false := by
    rcases h with ⟨msg, rfl⟩ | ⟨uwp, rfl⟩ | ⟨a, rest, uwp, rfl, hdl⟩
    · rfl
    · rfl
    · rcases hd : download_asset a dd sd net fs with ⟨r, fs2, log2⟩
      rw [hd] at hdl
      simp only at hdl
      subst hdl
      simp [run.main, hd]
  exact ⟨hm, by rw [hm]; rfl⟩

/-- Claim C8 witness: a raised resolution at a concrete input gives a
`False` return and exit code 1. -/
theorem C8_witness :
    (run.main "u" true none "/s" (.raised "boom") .eof
        (.response 200 [] none) fs0).1 = false ∧
    py_exit_code (run.main "u" true none "/s" (.raised "boom") .eof
        (.response 200 [] none) fs0).1 = 1 :=
  C8_auto_failure_exits_nonzero "u" none "/s" (.raised "boom") .eof
    (.response 200 [] none) fs0 (Or.inl ⟨"boom", rfl⟩)

/-- Claim C9: in auto mode an empty resolution result makes `main` return
`False` with the filesystem untouched — no download is attempted and
nothing is written. -/
theorem C9_auto_empty_no_download (url : String) (dd : Option String)
    (sd : String) (uwp : Bool) (input : UserInput) (net : NetBehavior)
    (fs : FS) :
    (run.main url true dd sd (.ok [] uwp) input net fs).1 = false ∧
    (run.main url true dd sd (.ok [] uwp) input net fs).2.1 = fs :=
  ⟨rfl, rfl⟩

/-- Claim C10: in interactive mode, EOF and a quit answer (any letter
case, via `lower()`) return `True` with no filesystem change; a
non-numeric answer returns `False`, and a numeric answer outside
`1..len(assets)` returns `False`. -/
theorem C10_interactive_inputs (url : String) (dd : Option String)
    (sd : String) (assets : List Asset) (uwp : Bool) (net : NetBehavior)
    (fs : FS) :
    ((run.main url false dd sd (.ok assets uwp) .eof net fs).1 = true ∧
      (run.main url false dd sd (.ok assets uwp) .eof net fs).2.1 = fs) ∧
    (∀ s, pyLower s = "q" →
      (run.main url false dd sd (.ok assets uwp) (.line s) net fs).1 = true ∧
      (run.main url false dd sd (.ok assets uwp) (.line s) net fs).2.1 = fs) ∧
    (∀ s, pyLower s ≠ "q" → pyInt? s = none →
      (run.main url false dd sd (.ok assets uwp) (.line s) net fs).1
        = false) ∧
    (∀ s n, pyLower s ≠ "q" → pyInt? s = some n →
      ¬(1 ≤ n ∧ n ≤ (assets.length : Int)) →
      (run.main url false dd sd (.ok assets uwp) (.line s) net fs).1
        = false) := by
  refine ⟨⟨rfl, rfl⟩, fun s h => ?_, fun s h hp => ?_, fun s n h hp hr => ?_⟩
  · constructor <;> simp [run.main, h]
  · have hb : (pyLower s == "q") = false := beq_eq_false_iff_ne.mpr h
    simp [run.main, hb, hp]
  · have hb : (pyLower s == "q") = false := beq_eq_false_iff_ne.mpr h
    have hif : ¬(1 ≤ n ∧ n - 1 < (assets.length : Int)) := by omega
    simp [run.main, hb, hp, hif]

/-- Claim C10 witness: with an empty asset list, EOF and the answer `Q`
(upper case) return success with no write; the answer `xx` is invalid
input and the answer `5` is out of range, both returning failure. -/
theorem C10_witness :
    ((run.main "u" false none "/s" (.ok [] true) .eof
          (.response 404 [] none) fs0).1 = true ∧
      (run.main "u" false none "/s" (.ok [] true) .eof
          (.response 404 [] none) fs0).2.1 = fs0) ∧
    (run.main "u" false none "/s" (.ok [] true) (.line "Q")
        (.response 404 [] none) fs0).1 = true ∧
    (run.main "u" false none "/s" (.ok [] true) (.line "xx")
        (.response 404 [] none) fs0).1 = false ∧
    (run.main "u" false none "/s" (.ok [] true) (.line "5")
        (.response 404 [] none) fs0).1 = false :=
  ⟨(C10_interactive_inputs "u" none "/s" [] true
      (.response 404 [] none) fs0).1,
    ((C10_interactive_inputs "u" none "/s" [] true
      (.response 404 [] none) fs0).2.1 "Q" (by decide)).1,
    (C10_interactive_inputs "u" none "/s" [] true
      (.response 404 [] none) fs0).2.2.1 "xx" (by decide) (by decide),
    (C10_interactive_inputs "u" none "/s" [] true
      (.response 404 [] none) fs0).2.2.2 "5" 5 (by decide) (by decide)
      (by decide)⟩
